import Mathlib

/-
Verification of the murf voice-changer widget (waveform capture, playback
synchronization, upload retry and WAV conversion).  The definitions below are
shallow embeddings of the TypeScript source:

* `src/useVoiceUpload.ts`   — upload retry driver (`handleRetry`, `startUpload`)
                              and shared recording utilities;
* `src/index.tsx`           — `uploadReducer`, the recording timer and the
                              `stopRecording` / `reRecord` actions;
* the recording-popup component — live amplitude sampling
                              (`drawLiveWaveformBars`), the static raster cache
                              (`drawStaticWaveformToCache`), the playback
                              animation loop (`animationLoop`, `lerp`);
* `src/useAudioConverter.ts` — `convertBlobToWav`.

JavaScript numbers are modelled as rationals (for the geometry and timers) and
as reals where `Math.exp` is involved; canvas dimension attributes follow the
platform's `unsigned long` coercion (truncate toward zero, modulo 2^32); typed
array and DataView stores follow their two's-complement semantics.
-/

namespace VoiceChanger

/-! ### JavaScript numeric conversions -/

/-- Truncation toward zero of a rational, as JavaScript's ToIntegerOrInfinity
performs on a finite number. -/
def ratTrunc (q : ℚ) : ℤ := if 0 ≤ q then ⌊q⌋ else -⌊-q⌋

/-- WebIDL conversion of a JS number to an `unsigned long`, used by the
`canvas.width` / `canvas.height` attribute setters: truncate toward zero, then
reduce modulo 2^32. -/
def jsToUint32 (q : ℚ) : ℕ := (ratTrunc q % (2 ^ 32 : ℤ)).toNat

/-! ### Upload state machine and retry driver (src/index.tsx, src/useVoiceUpload.ts) -/

/-- `UploadState.status` from `src/index.tsx`. -/
inductive UploadStatus
  | idle | uploading | processing | completed | failed
deriving DecidableEq, Repr

/-- The `UploadState` record of `src/index.tsx`. -/
structure UploadState where
  status : UploadStatus
  progress : ℚ
  processingProgress : ℚ
  error : Option String
  outputLink : Option String
  jobId : Option String
deriving DecidableEq, Repr

def initialUploadState : UploadState :=
  { status := .idle, progress := 0, processingProgress := 0,
    error := none, outputLink := none, jobId := none }

/-- The `UploadAction` union of `src/index.tsx`. -/
inductive UploadAction
  | startUploadAction
  | setUploadProgress (payload : ℚ)
  | startProcessing
  | setProcessingProgress (payload : ℚ)
  | complete (payload : String)
  | fail (payload : String)
  | reset
  | setJobId (payload : String)

/-- `uploadReducer` from `src/index.tsx`. -/
def uploadReducer (state : UploadState) (action : UploadAction) : UploadState :=
  match action with
  | .startUploadAction =>
      { state with status := .uploading, progress := 0, error := none }
  | .setUploadProgress p => { state with progress := p }
  | .startProcessing => { state with status := .processing, processingProgress := 0 }
  | .setProcessingProgress p => { state with processingProgress := p }
  | .complete link =>
      { state with status := .completed, outputLink := some link,
                   processingProgress := 100 }
  | .fail msg => { state with status := .failed, error := some msg }
  | .reset => initialUploadState
  | .setJobId id => { state with jobId := some id }

def MAX_UPLOAD_RETRIES : ℕ := 3

def RETRY_DELAY : ℕ := 2000

/-- What `handleRetry` decides after a failed attempt: either a new
`startUpload(currentRetryCount + 1)` scheduled after `RETRY_DELAY`
milliseconds, or the terminal FAIL dispatch. -/
inductive RetryDecision
  | schedule (delayMs nextRetryCount : ℕ)
  | terminal (message : String)
deriving DecidableEq, Repr

/-- `handleRetry` from `src/useVoiceUpload.ts` (lines 159-184). -/
def handleRetry (currentRetryCount : ℕ) (errorMessage : String) : RetryDecision :=
  if currentRetryCount < MAX_UPLOAD_RETRIES then
    .schedule RETRY_DELAY (currentRetryCount + 1)
  else
    .terminal ("Upload failed after " ++ toString MAX_UPLOAD_RETRIES ++
      " attempts: " ++ errorMessage)

/-- A run of the upload driver in which every attempt fails.  `pending` is the
`startUpload` invocation currently due (its scheduling delay in ms and its
`retryCount` argument); `attempts` counts the `startUpload` calls made. -/
structure UploadRun where
  state : UploadState
  attempts : ℕ
  pending : Option (ℕ × ℕ)
deriving DecidableEq, Repr

/-- The driver starts with an immediate `startUpload(0)` call. -/
def initialUploadRun : UploadRun :=
  { state := initialUploadState, attempts := 0, pending := some (0, 0) }

/-- One failing attempt: the due `startUpload(retryCount)` dispatches
START_UPLOAD, the XHR ends in `onerror` / `ontimeout`
(`src/useVoiceUpload.ts` lines 304-309), and `handleRetry` either schedules
the next attempt after `RETRY_DELAY` or dispatches the terminal FAIL. -/
def failingAttempt (errorMessage : String) (r : UploadRun) : UploadRun :=
  match r.pending with
  | none => r
  | some (_, retryCount) =>
    let s := uploadReducer r.state .startUploadAction
    match handleRetry retryCount errorMessage with
    | .schedule delay next =>
        { state := s, attempts := r.attempts + 1, pending := some (delay, next) }
    | .terminal msg =>
        { state := uploadReducer s (.fail msg), attempts := r.attempts + 1,
          pending := none }

/-! ### Recording timer and auto-stop (src/index.tsx, lines 371-412) -/

def MAX_DURATION : ℕ := 60

/-- The slice of the consolidated recording state read and written by the
recording timer and the stop action. -/
structure RecordingState where
  isRecording : Bool
  recordingTime : ℕ
  recordedDuration : ℕ
deriving DecidableEq, Repr

/-- A recording session: the recording state plus whether the 1-second timer
interval is installed and whether the MediaRecorder is still recording. -/
structure RecordingSession where
  recState : RecordingState
  timerActive : Bool
  mediaRecorderActive : Bool
deriving DecidableEq, Repr

/-- State right after the `startRecording` action installed the timer. -/
def startedRecordingSession : RecordingSession :=
  { recState := { isRecording := true, recordingTime := 0, recordedDuration := 0 },
    timerActive := true, mediaRecorderActive := true }

/-- One firing of the 1-second recording timer (`src/index.tsx` 371-386):
`newTime = recordingTime + 1`; if `newTime >= MAX_DURATION` the MediaRecorder
is stopped and the interval cleared, and the state updater returns `prev`
unchanged (so `recordingTime` and `isRecording` keep their old values);
otherwise `recordingTime` becomes `newTime`. -/
def recordingTimerTick (s : RecordingSession) : RecordingSession :=
  if s.timerActive then
    let newTime := s.recState.recordingTime + 1
    if MAX_DURATION ≤ newTime then
      { s with mediaRecorderActive := false, timerActive := false }
    else
      { s with recState := { s.recState with recordingTime := newTime } }
  else s

/-- The `stopRecording` action (`src/index.tsx` 392-412): flips `isRecording`,
stops the MediaRecorder, clears the timer, and sets
`recordedDuration := recordingTime`. -/
def stopRecordingAction (s : RecordingSession) : RecordingSession :=
  { recState := { s.recState with
                    isRecording := false,
                    recordedDuration := s.recState.recordingTime },
    timerActive := false, mediaRecorderActive := false }

/-- The tail of `drawLiveWaveformBars`: another animation frame is requested
exactly when the `isRecording` prop is still true. -/
def liveLoopReschedules (isRecording : Bool) : Bool := isRecording

/-! ### Waveform geometry constants (recording-popup component) -/

def fixedBarWidth : ℚ := 3

def fixedGap : ℚ := 23 / 10

def totalBarAndGapWidth : ℚ := fixedBarWidth + fixedGap

def cornerRadiusLogical : ℚ := 1

/-- One rectangle fill painted into a raster (all coordinates in physical
pixels).  `rounded` is false when `drawRoundedRect` degraded to a plain
`fillRect`. -/
structure DrawOp where
  x : ℚ
  y : ℚ
  w : ℚ
  h : ℚ
  radius : ℚ
  rounded : Bool
deriving DecidableEq, Repr

/-- `drawRoundedRect` (popup component, lines 277-310): paints a plain filled
rectangle when `height < 2 * radius`, a rounded one otherwise. -/
def drawRoundedRect (x y w h radius : ℚ) : DrawOp :=
  if h < 2 * radius then
    { x := x, y := y, w := w, h := h, radius := radius, rounded := false }
  else
    { x := x, y := y, w := w, h := h, radius := radius, rounded := true }

/-- An offscreen canvas: the stored `width` / `height` attributes (truncated
by the platform) and the fill commands painted after the full clear.  Setting
the dimensions plus the `clearRect` over the whole surface erase every prior
pixel, so `ops` on a blank surface determine the pixel content. -/
structure CachedCanvas where
  width : ℕ
  height : ℕ
  ops : List DrawOp
deriving DecidableEq, Repr

/-- The popup's per-session mutable refs touched by a re-record:
`waveformHistoryRef`, `cachedWaveformCanvasRef`, `internalPlaybackTime` and
`smoothedScrollOffsetRef`. -/
structure PopupState where
  waveformHistory : List ℚ
  cachedWaveformCanvas : Option CachedCanvas
  internalPlaybackTime : ℚ
  smoothedScrollOffset : ℚ
deriving DecidableEq, Repr

/-- The popup effect that runs when `recordedAudioUrl` becomes null (popup
component, lines 832-855): clears `waveformHistoryRef`, re-zeroes the internal
playback time and the smoothed scroll offset, and clears the visible canvas
pixels.  The `cachedWaveformCanvasRef` handle is not assigned anywhere in
this effect (nor anywhere else after its creation). -/
def clearOnNullAudioUrl (p : PopupState) : PopupState :=
  { p with waveformHistory := [], internalPlaybackTime := 0,
           smoothedScrollOffset := 0 }

/-- The re-record action (`src/index.tsx` 491-500): `cleanupRecordedAudio`
plus `resetRecordingState` set `recordedAudioUrl` to null and bump
`resetTrigger`; in the popup this runs `clearOnNullAudioUrl` and the
reset-trigger effect, which re-zeroes the same playback time and scroll
fields. -/
def reRecord (p : PopupState) : PopupState := clearOnNullAudioUrl p

/-! ### Live amplitude sampling (drawLiveWaveformBars, lines 424-439) -/

def sensitivityFactor : ℚ := 61 / 2

/-- Arithmetic mean of the frequency-bin byte array
(`sum / bufferLength`). -/
def averageAmplitude (dataArray : List ℕ) : ℚ :=
  (dataArray.sum : ℚ) / (dataArray.length : ℚ)

/-- `scaledHeight = ((averageAmplitude / 255) * physicalHeight *
sensitivityFactor) / dpr` (line 435-436). -/
def scaledHeight (dataArray : List ℕ) (physicalHeight dpr : ℚ) : ℚ :=
  averageAmplitude dataArray / 255 * physicalHeight * sensitivityFactor / dpr

/-- `newBarHeight = Math.max(2, Math.min(scaledHeight, 32))` (line 437). -/
def newBarHeight (dataArray : List ℕ) (physicalHeight dpr : ℚ) : ℚ :=
  max 2 (min (scaledHeight dataArray physicalHeight dpr) 32)

/-- One live sampling tick pushes the new bar height onto the waveform
history (line 439). -/
def liveTickHistory (hist : List ℚ) (dataArray : List ℕ)
    (physicalHeight dpr : ℚ) : List ℚ :=
  hist ++ [newBarHeight dataArray physicalHeight dpr]

/-- `clamp(v, lo, hi)` as the spec's sentences use it. -/
def specClamp (v lo hi : ℚ) : ℚ := max lo (min v hi)

/-! ### Static raster cache (drawStaticWaveformToCache, lines 313-381) -/

/-- Device-pixel height of the visible canvas: the effect at lines 592-644
(and the resize branches of the draw functions) set
`canvas.height = Math.floor(canvas.offsetHeight * dpr)`. -/
def visibleCanvasDeviceHeight (offsetHeight dpr : ℚ) : ℕ :=
  jsToUint32 ((⌊offsetHeight * dpr⌋ : ℤ) : ℚ)

/-- Geometry of bar `i` of the cached static waveform (lines 359-376). -/
def staticBarOp (dpr physicalHeight : ℚ) (i : ℕ) (historicalBarHeight : ℚ) :
    DrawOp :=
  let barX := (i : ℚ) * totalBarAndGapWidth * dpr
  let barHeightPhysical := historicalBarHeight * dpr
  let barY := (physicalHeight - barHeightPhysical) / 2
  let barWidthPhysical := fixedBarWidth * dpr
  drawRoundedRect barX barY barWidthPhysical barHeightPhysical
    (cornerRadiusLogical * dpr)

/-- `drawStaticWaveformToCache`: returns early (leaving the cached-canvas ref
unchanged) when the history is empty; otherwise sizes the offscreen canvas to
`history.length * (barWidth + gap) * dpr` by `Math.floor(offsetHeight * dpr)`
— both coerced by the `unsigned long` attribute setters — clears it, and
paints every bar with no scroll offset.  The result does not depend on the
previous cached content: the dimension assignments and the full `clearRect`
erase it. -/
def drawStaticWaveformToCache (history : List ℚ) (dpr offsetHeight : ℚ)
    (prev : Option CachedCanvas) : Option CachedCanvas :=
  if history.isEmpty then prev
  else
    let totalWaveformPhysicalWidth :=
      (history.length : ℚ) * totalBarAndGapWidth * dpr
    let width := jsToUint32 totalWaveformPhysicalWidth
    let height := visibleCanvasDeviceHeight offsetHeight dpr
    let physicalHeight : ℚ := (height : ℚ)
    some { width := width, height := height,
           ops := (List.range history.length).map
             (fun i => staticBarOp dpr physicalHeight i (history.getD i 0)) }

/-! ### Playback scroll target (animationLoop, lines 687-714) -/

/-- The `targetScrollOffset` computation of the playback animation loop:
progress through the full raster scaled from playback time, playhead fixed at
`physicalWidth * 0.2`, clamped to `[0, totalWidth - physicalWidth]`, and `0`
whenever the raster fits in the visible canvas. -/
def targetScrollOffset (newInternalPlaybackTime recordedDuration
    totalWaveformPhysicalWidth physicalWidth : ℚ) : ℚ :=
  let playbackProgressPhysical :=
    if 0 < recordedDuration then
      newInternalPlaybackTime / recordedDuration * totalWaveformPhysicalWidth
    else 0
  let playheadCanvasPosition := physicalWidth * (2 / 10)
  if physicalWidth < totalWaveformPhysicalWidth then
    max 0 (min (playbackProgressPhysical - playheadCanvasPosition)
      (totalWaveformPhysicalWidth - physicalWidth))
  else 0

/-- Modelled from the spec's sentence for the scroll target, to be compared
with the source's `targetScrollOffset`: `clamp(progressPixels -
playheadPixel, 0, totalRasterWidth - visibleWidth)` when the raster is wider
than the canvas, `0` otherwise, with `progressPixels = (playbackTime /
recordedDuration) * totalRasterWidth` and the playhead at 20% of the visible
width. -/
def specTargetScrollOffset (playbackTime recordedDuration totalRasterWidth
    visibleWidth : ℚ) : ℚ :=
  let progressPixels := playbackTime / recordedDuration * totalRasterWidth
  if visibleWidth < totalRasterWidth then
    specClamp (progressPixels - (2 / 10) * visibleWidth) 0
      (totalRasterWidth - visibleWidth)
  else 0

/-! ### Exponential scroll smoothing (lerp, easingFactor; lines 211-213 and
724-730) -/

/-- `lerp` helper of the popup component.  (The source's second parameter is
called `end`, a Lean keyword.) -/
noncomputable def lerp (start stop amount : ℝ) : ℝ :=
  start * (1 - amount) + stop * amount

/-- `easingFactor = 1 - Math.exp((-1.8 * deltaTime) / 1000)` (line 725). -/
noncomputable def easingFactor (deltaTime : ℝ) : ℝ :=
  1 - Real.exp (-1.8 * deltaTime / 1000)

/-- One smoothing update of the scroll offset (lines 726-730):
`smoothed := lerp(smoothed, target, easingFactor(deltaTime))`. -/
noncomputable def smoothStep (smoothed target deltaTime : ℝ) : ℝ :=
  lerp smoothed target (easingFactor deltaTime)

/-! ### Playback animation loop (lines 646-800) -/

/-- The refs owned by the playback animation loop.  `animFrameRequested`
models whether `playbackAnimationFrameIdRef` holds a pending request. -/
structure PlaybackLoopState where
  playbackStartTime : Option ℚ
  lastFrameTime : Option ℚ
  internalPlaybackTime : ℚ
  animFrameRequested : Bool
deriving DecidableEq, Repr

/-- The props and canvas facts one `animationLoop` tick reads. -/
structure PlaybackCtx where
  isPlayingRecordedAudio : Bool
  canvasPresent : Bool
  currentPlaybackTime : ℚ
  recordedDuration : ℚ
  physicalWidth : ℚ
  dpr : ℚ
  historyLength : ℕ
deriving DecidableEq, Repr

/-- Elapsed playback seconds as `animationLoop` computes them (line 680),
after the start-time initialization of lines 660-669:
`start = playbackStartTime ?? (timestamp - currentPlaybackTime * 1000)`,
`elapsed = (timestamp - start) / 1000`. -/
def elapsedSeconds (ctx : PlaybackCtx) (timestamp : ℚ)
    (s : PlaybackLoopState) : ℚ :=
  let start := s.playbackStartTime.getD
    (timestamp - ctx.currentPlaybackTime * 1000)
  (timestamp - start) / 1000

/-- Outputs of one `animationLoop` tick: the new loop refs, whether
`onPauseRecording` was invoked, and the `(targetScrollOffset, deltaTime)`
pair fed to the exponential smoothing (none on the early-exit path). -/
structure PlaybackTickOutput where
  state : PlaybackLoopState
  pauseSignaled : Bool
  scrollUpdate : Option (ℚ × ℚ)
deriving DecidableEq, Repr

/-- One tick of `animationLoop` (lines 649-754).  Early exit when playback is
no longer active or the canvas is gone; otherwise compute `deltaTime` and
`elapsed`, clamp the internal playback time to the recorded duration, compute
the scroll target, and either finish (signal pause, pin the time to the exact
duration, request no further frame) or request the next frame. -/
def animationLoop (ctx : PlaybackCtx) (timestamp : ℚ)
    (s : PlaybackLoopState) : PlaybackTickOutput :=
  if ¬ (ctx.isPlayingRecordedAudio ∧ ctx.canvasPresent) then
    { state := { s with animFrameRequested := false,
                        playbackStartTime := none, lastFrameTime := none },
      pauseSignaled := false, scrollUpdate := none }
  else
    let start := s.playbackStartTime.getD
      (timestamp - ctx.currentPlaybackTime * 1000)
    let last := if s.playbackStartTime.isNone then timestamp
      else s.lastFrameTime.getD timestamp
    let deltaTime := timestamp - last
    let elapsed := (timestamp - start) / 1000
    let newInternalPlaybackTime := min elapsed ctx.recordedDuration
    let totalWaveformPhysicalWidth :=
      (ctx.historyLength : ℚ) * totalBarAndGapWidth * ctx.dpr
    let target := targetScrollOffset newInternalPlaybackTime
      ctx.recordedDuration totalWaveformPhysicalWidth ctx.physicalWidth
    if ctx.recordedDuration ≤ newInternalPlaybackTime then
      { state := { playbackStartTime := none, lastFrameTime := none,
                   internalPlaybackTime := ctx.recordedDuration,
                   animFrameRequested := false },
        pauseSignaled := true, scrollUpdate := some (target, deltaTime) }
    else
      { state := { playbackStartTime := some start,
                   lastFrameTime := some timestamp,
                   internalPlaybackTime := newInternalPlaybackTime,
                   animFrameRequested := true },
        pauseSignaled := false, scrollUpdate := some (target, deltaTime) }

/-- The scroll-offset ref update applied with the tick's `scrollUpdate`
output (lines 726-730). -/
noncomputable def applyScrollUpdate (smoothed : ℝ) (upd : ℚ × ℚ) : ℝ :=
  smoothStep smoothed (upd.1 : ℝ) (upd.2 : ℝ)

/-! ### WAV conversion (src/useAudioConverter.ts, convertBlobToWav)

The decoded `AudioBuffer` is given by its sample rate, its frame count `f`
(`audioBuffer.length`) and the per-channel sample lists
(`getChannelData(ch)`); samples are rationals standing for the JS floats.
The `ArrayBuffer` under construction is a byte function `ℕ → ℕ`,
zero-initialized as the platform guarantees, and each `DataView` /
`Int16Array` store is a little-endian byte write. -/

/-- Sequential byte writes into a buffer, later writes winning. -/
def writeBytes (buf : ℕ → ℕ) (off : ℕ) : List ℕ → (ℕ → ℕ)
  | [] => buf
  | b :: bs => writeBytes (Function.update buf off b) (off + 1) bs

/-- Little-endian bytes stored by `DataView.setUint16` (value mod 2^16). -/
def u16le (v : ℕ) : List ℕ :=
  [v % 2 ^ 16 % 256, v % 2 ^ 16 / 256]

/-- Little-endian bytes stored by `DataView.setUint32` (value mod 2^32). -/
def u32le (v : ℕ) : List ℕ :=
  let u := v % 2 ^ 32
  [u % 256, u / 256 % 256, u / 256 / 256 % 256, u / 256 / 256 / 256]

/-- Little-endian bytes stored by `DataView.setInt16`: two's complement of
the value modulo 2^16. -/
def i16le (v : ℤ) : List ℕ :=
  let u := (v % (2 ^ 16 : ℤ)).toNat
  [u % 256, u / 256]

/-- The bytes `writeString` stores (char codes of an ASCII tag). -/
def strBytes (s : String) : List ℕ := s.data.map Char.toNat

/-- `floatTo16BitPCM` / the `pcm16` fill (useAudioConverter lines 102-111 and
126-135): clamp the sample to `[-1, 1]`, scale negatives by `0x8000` and
non-negatives by `0x7fff`; the `Int16Array` store truncates the float toward
zero. -/
def floatTo16 (sample : ℚ) : ℤ :=
  let s := max (-1) (min 1 sample)
  if s < 0 then ratTrunc (s * 0x8000) else ratTrunc (s * 0x7fff)

/-- `getChannelData(ch)[i]` with the buffer's channel lists. -/
def channelSample (channels : List (List ℚ)) (ch i : ℕ) : ℚ :=
  (channels.getD ch []).getD i 0

/-- The interleaved `pcm16` array (lines 126-135): frame-major, channel-minor
(`pcm16[i * numOfChan + channel]`). -/
def pcm16 (f : ℕ) (channels : List (List ℚ)) : List ℤ :=
  (List.range f).flatMap fun i =>
    (List.range channels.length).map fun ch =>
      floatTo16 (channelSample channels ch i)

/-- `len = audioBuffer.length * numOfChan * 2 + 44` (line 46). -/
def wavLen (f c : ℕ) : ℕ := f * c * 2 + 44

/-- The header writes of `convertBlobToWav` in source order (lines 60-99);
the running `offset` is made explicit.  The data-chunk length written at
offset 40 is `len - 40 - 4`. -/
def wavHeaderWrites (rate f c : ℕ) (buf : ℕ → ℕ) : ℕ → ℕ :=
  let len := wavLen f c
  let b1 := writeBytes buf 0 (strBytes "RIFF")
  let b2 := writeBytes b1 4 (u32le (len - 8))
  let b3 := writeBytes b2 8 (strBytes "WAVE")
  let b4 := writeBytes b3 12 (strBytes "fmt ")
  let b5 := writeBytes b4 16 (u32le 16)
  let b6 := writeBytes b5 20 (u16le 1)
  let b7 := writeBytes b6 22 (u16le c)
  let b8 := writeBytes b7 24 (u32le rate)
  let b9 := writeBytes b8 28 (u32le (rate * c * 2))
  let b10 := writeBytes b9 32 (u16le (c * 2))
  let b11 := writeBytes b10 34 (u16le 16)
  let b12 := writeBytes b11 36 (strBytes "data")
  writeBytes b12 40 (u32le (len - 40 - 4))

/-- The first PCM pass (lines 113-119): each channel's samples written
consecutively at `44 + ch * (f * 2)`.  The interleaved pass below rewrites
the whole data region `[44, 44 + 2*f*c)`, so none of these bytes survive in
the final buffer. -/
def wavChannelWrites (f : ℕ) (channels : List (List ℚ)) (buf : ℕ → ℕ) :
    ℕ → ℕ :=
  (List.range channels.length).foldl
    (fun b ch => writeBytes b (44 + ch * (f * 2))
      ((channels.getD ch []).flatMap fun x => i16le (floatTo16 x)))
    buf

/-- The interleaved PCM pass (lines 137-142): `pcm16` written at offset 44. -/
def wavDataWrites (f : ℕ) (channels : List (List ℚ)) (buf : ℕ → ℕ) : ℕ → ℕ :=
  writeBytes buf 44 ((pcm16 f channels).flatMap i16le)

/-- The final `ArrayBuffer` contents produced by `convertBlobToWav` for a
successfully decoded non-WAV input, as a byte function (indices past
`wavLen` stay at their zero initialization). -/
def convertBlobToWav (rate f : ℕ) (channels : List (List ℚ)) : ℕ → ℕ :=
  wavDataWrites f channels
    (wavChannelWrites f channels
      (wavHeaderWrites rate f channels.length (fun _ => 0)))

/-- The byte list of the produced WAV blob (`new Blob([view])` takes exactly
the `len` buffer bytes). -/
def wavBytes (rate f : ℕ) (channels : List (List ℚ)) : List ℕ :=
  (List.range (wavLen f channels.length)).map (convertBlobToWav rate f channels)

/-- Decode an unsigned little-endian 16-bit field of the buffer. -/
def readU16 (buf : ℕ → ℕ) (off : ℕ) : ℕ := buf off + 256 * buf (off + 1)

/-- Decode an unsigned little-endian 32-bit field of the buffer. -/
def readU32 (buf : ℕ → ℕ) (off : ℕ) : ℕ :=
  buf off + 256 * buf (off + 1) + 256 ^ 2 * buf (off + 2) +
    256 ^ 3 * buf (off + 3)

/-- Decode a signed little-endian 16-bit field of the buffer. -/
def readI16 (buf : ℕ → ℕ) (off : ℕ) : ℤ :=
  let u := readU16 buf off
  if u < 2 ^ 15 then (u : ℤ) else (u : ℤ) - 2 ^ 16

/-! ## Theorems -/

/-! ### C1: upload retry exhaustion -/

/-- C1 counterexample: after 3 consecutive network failures the upload state
machine is still in status `uploading`, not `failed`, and a 4th
`startUpload` attempt (retryCount 3) is scheduled after the 2000 ms delay —
refuting "after the 3rd consecutive failure the upload state machine is in
status 'failed' ... and no 4th attempt is made". -/
theorem c1_three_failures_not_failed :
    ((failingAttempt "Network error occurred")^[3] initialUploadRun).state.status
        ≠ UploadStatus.failed ∧
      ((failingAttempt "Network error occurred")^[3] initialUploadRun).pending
        = some (RETRY_DELAY, 3) := by
  decide

/-- C1 (amended): when every attempt ends in a network error, each of the
first three failures schedules a retry with the fixed 2000 ms delay, and it
is after the 4th consecutive failure that the state machine reaches status
`failed` with the terminal error message, with no further attempt scheduled
(and additional failure steps change nothing). -/
theorem c1_retry_exhaustion (msg : String) :
    ((failingAttempt msg)^[1] initialUploadRun).pending = some (RETRY_DELAY, 1) ∧
    ((failingAttempt msg)^[2] initialUploadRun).pending = some (RETRY_DELAY, 2) ∧
    ((failingAttempt msg)^[3] initialUploadRun).pending = some (RETRY_DELAY, 3) ∧
    ((failingAttempt msg)^[3] initialUploadRun).state.status =
      UploadStatus.uploading ∧
    ((failingAttempt msg)^[4] initialUploadRun).state.status =
      UploadStatus.failed ∧
    ((failingAttempt msg)^[4] initialUploadRun).state.error =
      some ("Upload failed after 3 attempts: " ++ msg) ∧
    ((failingAttempt msg)^[4] initialUploadRun).attempts = 4 ∧
    ((failingAttempt msg)^[4] initialUploadRun).pending = none ∧
    failingAttempt msg ((failingAttempt msg)^[4] initialUploadRun) =
      (failingAttempt msg)^[4] initialUploadRun := by
  refine ⟨rfl, rfl, rfl, rfl, rfl, rfl, rfl, rfl, rfl⟩

/-! ### C2: auto-stop at maxDuration -/

/-- C2 (evaluation of the code at the failing input): after 60 firings of the
1-second recording timer the MediaRecorder has been auto-stopped and the
interval cleared, but `recordingTime` is left at 59 and `isRecording` is
still true — so the live-sampling loop keeps requesting frames — and the
subsequent stop action records `recordedDuration = 59`, not
`maxDuration = 60`. -/
theorem c2_autoStop_divergence :
    recordingTimerTick^[60] startedRecordingSession =
      { recState := { isRecording := true, recordingTime := 59,
                      recordedDuration := 0 },
        timerActive := false, mediaRecorderActive := false } ∧
    liveLoopReschedules
        (recordingTimerTick^[60] startedRecordingSession).recState.isRecording
      = true ∧
    (stopRecordingAction
        (recordingTimerTick^[60] startedRecordingSession)).recState.recordedDuration
      = 59 := by
  set_option maxRecDepth 4000 in decide

/-! ### C3: re-record clears history but not the cached raster handle -/

/-- C3 counterexample: starting from a reviewing state whose cached raster
handle is non-null, the re-record action empties the waveform history but
leaves the cached raster handle non-null, refuting the claimed
conjunction. -/
theorem c3_cached_raster_survives :
    ¬ ((reRecord
          { waveformHistory := [10, 20],
            cachedWaveformCanvas := some { width := 53, height := 72, ops := [] },
            internalPlaybackTime := 1,
            smoothedScrollOffset := 4 }).waveformHistory.length = 0 ∧
       (reRecord
          { waveformHistory := [10, 20],
            cachedWaveformCanvas := some { width := 53, height := 72, ops := [] },
            internalPlaybackTime := 1,
            smoothedScrollOffset := 4 }).cachedWaveformCanvas = none) := by
  decide

/-- C3 (amended): after the re-record action the waveform history always has
length 0 and the internal playback time and smoothed scroll offset are
re-zeroed, but the cached raster handle keeps its previous value (it is null
only if it was already null). -/
theorem c3_reRecord_state (p : PopupState) :
    (reRecord p).waveformHistory.length = 0 ∧
    (reRecord p).internalPlaybackTime = 0 ∧
    (reRecord p).smoothedScrollOffset = 0 ∧
    (reRecord p).cachedWaveformCanvas = p.cachedWaveformCanvas :=
  ⟨rfl, rfl, rfl, rfl⟩

/-! ### C4: sampled bar heights are the clamped scaled mean -/

/-- C4: the bar height appended to the waveform history by a live sampling
tick equals `clamp((mean(bins)/255) * physicalCanvasHeight *
sensitivityFactor / devicePixelRatio, 2, 32)`, and in particular it always
lies in `[2, 32]` logical pixels. -/
theorem c4_barHeight_clamped (hist : List ℚ) (dataArray : List ℕ)
    (physicalHeight dpr : ℚ) :
    (liveTickHistory hist dataArray physicalHeight dpr).getLast? =
      some (specClamp
        (averageAmplitude dataArray / 255 * physicalHeight * sensitivityFactor
          / dpr) 2 32) ∧
    2 ≤ newBarHeight dataArray physicalHeight dpr ∧
    newBarHeight dataArray physicalHeight dpr ≤ 32 := by
  refine ⟨?_, le_max_left _ _, max_le (by norm_num) (min_le_right _ _)⟩
  simp [liveTickHistory, newBarHeight, scaledHeight, specClamp]

/-! ### C5: cached raster dimensions -/

/-- Evaluation of the `unsigned long` attribute coercion on an in-range
non-negative value. -/
theorem jsToUint32_eq_floor (q : ℚ) (h0 : 0 ≤ q) (hb : q < 2 ^ 32) :
    (jsToUint32 q : ℤ) = ⌊q⌋ := by
  rw [jsToUint32, ratTrunc, if_pos h0]
  have hfl0 : 0 ≤ ⌊q⌋ := Int.floor_nonneg.mpr h0
  have hflb : ⌊q⌋ < 2 ^ 32 := by
    rw [Int.floor_lt]
    push_cast
    exact hb
  rw [Int.emod_eq_of_lt hfl0 hflb, Int.toNat_of_nonneg hfl0]

/-- C5 counterexample: built from a one-bar history at devicePixelRatio 1,
the cached canvas width attribute is 5 physical pixels, whereas the claim
demands `1 * (3 + 2.3) * 1 = 5.3`: the `unsigned long` attribute setter
truncates the non-integral product. -/
theorem c5_width_truncated :
    ¬ ((drawStaticWaveformToCache [10] 1 72 none).map
          (fun c => (c.width : ℚ)) =
        some ((([10] : List ℚ).length : ℚ) * totalBarAndGapWidth * 1)) := by
  intro h
  have hmap : (drawStaticWaveformToCache [10] 1 72 none).map
      (fun c => (c.width : ℚ)) =
      some ((jsToUint32 ((([10] : List ℚ).length : ℚ) * totalBarAndGapWidth * 1)
        : ℚ)) := rfl
  rw [hmap] at h
  have hx : (([10] : List ℚ).length : ℚ) * totalBarAndGapWidth * 1 = 53 / 10 := by
    norm_num [totalBarAndGapWidth, fixedBarWidth, fixedGap]
  rw [hx] at h
  have h5 : (jsToUint32 (53 / 10) : ℤ) = 5 := by
    rw [jsToUint32_eq_floor (53 / 10) (by norm_num) (by norm_num)]
    norm_num
  have h5' : (jsToUint32 (53 / 10) : ℚ) = 5 := by exact_mod_cast h5
  rw [h5', Option.some_inj] at h
  norm_num at h

/-- C5 (amended): the cached raster built from a non-empty history of length
`n` has width `⌊n * (3 + 2.3) * dpr⌋` physical pixels — the stated product
truncated by the canvas attribute setter, and equal to it exactly when the
product is integral — and height equal to the visible canvas's device-pixel
height. -/
theorem c5_cache_dimensions (history : List ℚ) (dpr offsetHeight : ℚ)
    (prev : Option CachedCanvas) (hne : history ≠ []) (hdpr : 0 < dpr)
    (hbound : (history.length : ℚ) * totalBarAndGapWidth * dpr < 2 ^ 32) :
    ∃ c, drawStaticWaveformToCache history dpr offsetHeight prev = some c ∧
      (c.width : ℤ) = ⌊(history.length : ℚ) * totalBarAndGapWidth * dpr⌋ ∧
      c.height = visibleCanvasDeviceHeight offsetHeight dpr := by
  have hni : history.isEmpty = false := by
    simpa [List.isEmpty_iff] using hne
  have h2 : (0 : ℚ) ≤ totalBarAndGapWidth := by
    rw [totalBarAndGapWidth, fixedBarWidth, fixedGap]
    norm_num
  have hpos : (0 : ℚ) ≤ (history.length : ℚ) * totalBarAndGapWidth * dpr :=
    mul_nonneg (mul_nonneg (by positivity) h2) hdpr.le
  refine ⟨{ width := jsToUint32 ((history.length : ℚ) * totalBarAndGapWidth * dpr),
            height := visibleCanvasDeviceHeight offsetHeight dpr,
            ops := (List.range history.length).map
              (fun i => staticBarOp dpr
                ((visibleCanvasDeviceHeight offsetHeight dpr : ℕ) : ℚ) i
                (history.getD i 0)) }, ?_, ?_, rfl⟩
  · unfold drawStaticWaveformToCache
    rw [hni]
    rfl
  · exact jsToUint32_eq_floor _ hpos hbound

/-- Witness for `c5_cache_dimensions` at a 3-bar history with
devicePixelRatio 2 (total width `3 * 5.3 * 2 = 31.8`, truncated to 31). -/
theorem c5_cache_dimensions_witness :
    (([(10 : ℚ), 20, 30] : List ℚ) ≠ [] ∧ (0 : ℚ) < 2 ∧
      ((([(10 : ℚ), 20, 30] : List ℚ).length : ℚ) * totalBarAndGapWidth * 2
        < 2 ^ 32)) ∧
    (∃ c, drawStaticWaveformToCache [10, 20, 30] 2 36 none = some c ∧
      (c.width : ℤ) =
        ⌊(([(10 : ℚ), 20, 30] : List ℚ).length : ℚ) * totalBarAndGapWidth * 2⌋ ∧
      c.height = visibleCanvasDeviceHeight 36 2) :=
  ⟨⟨by decide, by decide,
      by norm_num [totalBarAndGapWidth, fixedBarWidth, fixedGap]⟩,
    c5_cache_dimensions [10, 20, 30] 2 36 none (by decide) (by decide)
      (by norm_num [totalBarAndGapWidth, fixedBarWidth, fixedGap])⟩

/-! ### C6: raster rebuild is deterministic and idempotent -/

/-- C6: rebuilding the static raster cache from the same non-empty history,
devicePixelRatio and canvas height is deterministic and idempotent: the
result never depends on the previously cached raster, so building twice — or
from any two prior cache states — yields identical dimensions and draw
commands, hence pixel-identical raster content. -/
theorem c6_cache_idempotent (history : List ℚ) (dpr offsetHeight : ℚ)
    (prev prev' : Option CachedCanvas) (hne : history ≠ []) :
    drawStaticWaveformToCache history dpr offsetHeight
        (drawStaticWaveformToCache history dpr offsetHeight prev) =
      drawStaticWaveformToCache history dpr offsetHeight prev ∧
    drawStaticWaveformToCache history dpr offsetHeight prev =
      drawStaticWaveformToCache history dpr offsetHeight prev' := by
  have hni : history.isEmpty = false := by
    simpa [List.isEmpty_iff] using hne
  constructor <;>
    · unfold drawStaticWaveformToCache
      rw [hni]
      rfl

/-- Witness for `c6_cache_idempotent` at a concrete two-bar history. -/
theorem c6_cache_idempotent_witness :
    (([(4 : ℚ), 8] : List ℚ) ≠ []) ∧
    (drawStaticWaveformToCache [4, 8] 1 72
        (drawStaticWaveformToCache [4, 8] 1 72 none) =
      drawStaticWaveformToCache [4, 8] 1 72 none ∧
    drawStaticWaveformToCache [4, 8] 1 72 none =
      drawStaticWaveformToCache [4, 8] 1 72
        (some { width := 9, height := 9, ops := [] })) :=
  ⟨by decide,
    c6_cache_idempotent [4, 8] 1 72 none
      (some { width := 9, height := 9, ops := [] }) (by decide)⟩

/-! ### C7: playback scroll target formula -/

/-- C7: on a playback tick with positive recorded duration, the code's target
scroll offset agrees with the spec's formula: `clamp(progressPixels - 20% of
the visible width, 0, totalRasterWidth - visibleWidth)` when the raster is
wider than the visible canvas, and 0 otherwise, where `progressPixels =
(playbackTime / recordedDuration) * totalRasterWidth`. -/
theorem c7_targetScrollOffset_correct (t duration totalW visibleW : ℚ)
    (hd : 0 < duration) :
    targetScrollOffset t duration totalW visibleW =
      specTargetScrollOffset t duration totalW visibleW := by
  rw [targetScrollOffset, specTargetScrollOffset, specClamp, if_pos hd]
  rcases lt_or_le visibleW totalW with h | h
  · rw [if_pos h, if_pos h, mul_comm visibleW (2 / 10 : ℚ)]
  · rw [if_neg (not_lt.mpr h), if_neg (not_lt.mpr h)]

/-- Witness for `c7_targetScrollOffset_correct` at a concrete playback
instant (t = 2s of 8s, raster 1060 px, canvas 500 px wide). -/
theorem c7_targetScrollOffset_witness :
    ((0 : ℚ) < 8) ∧
    targetScrollOffset 2 8 1060 500 = specTargetScrollOffset 2 8 1060 500 :=
  ⟨by decide, c7_targetScrollOffset_correct 2 8 1060 500 (by decide)⟩

/-! ### C8: exponential smoothing contracts toward the target -/

/-- With positive `deltaTime` the easing factor is strictly positive. -/
theorem easingFactor_pos (dt : ℝ) (hdt : 0 < dt) : 0 < easingFactor dt := by
  rw [easingFactor, sub_pos, Real.exp_lt_one_iff]
  nlinarith

/-- The easing factor is always strictly below 1. -/
theorem easingFactor_lt_one (dt : ℝ) : easingFactor dt < 1 := by
  have := Real.exp_pos (-1.8 * dt / 1000)
  rw [easingFactor]
  linarith

/-- One smoothing step scales the signed distance to the target by
`1 - easingFactor`. -/
theorem smoothStep_sub_target (s t dt : ℝ) :
    smoothStep s t dt - t = (1 - easingFactor dt) * (s - t) := by
  rw [smoothStep, lerp]
  ring

/-- Closed form of iterating the smoothing step against a constant target
and timestep. -/
theorem smoothStep_iterate (s t dt : ℝ) (n : ℕ) :
    (fun x => smoothStep x t dt)^[n] s =
      t + (1 - easingFactor dt) ^ n * (s - t) := by
  induction n with
  | zero => simp
  | succ n ih =>
      rw [Function.iterate_succ_apply', ih, pow_succ]
      have h := smoothStep_sub_target (t + (1 - easingFactor dt) ^ n * (s - t)) t dt
      linear_combination h

/-- C8: a smoothing update `smoothed + (target - smoothed) *
(1 - e^(-1.8*dt/1000))` with positive `dt` never increases the distance to a
constant target (and strictly decreases it while away from the target),
never overshoots (the new value stays between the old value and the target),
and iterating it with a constant target and timestep converges to the
target. -/
theorem c8_smoothing_converges (s t dt : ℝ) (hdt : 0 < dt) :
    |smoothStep s t dt - t| ≤ |s - t| ∧
    (s ≠ t → |smoothStep s t dt - t| < |s - t|) ∧
    min s t ≤ smoothStep s t dt ∧ smoothStep s t dt ≤ max s t ∧
    Filter.Tendsto (fun n => (fun x => smoothStep x t dt)^[n] s)
      Filter.atTop (nhds t) := by
  have hα0 : 0 < easingFactor dt := easingFactor_pos dt hdt
  have hα1 : easingFactor dt < 1 := easingFactor_lt_one dt
  have hβ0 : (0 : ℝ) ≤ 1 - easingFactor dt := by linarith
  have hβ1 : 1 - easingFactor dt < 1 := by linarith
  have habs : |smoothStep s t dt - t| = (1 - easingFactor dt) * |s - t| := by
    rw [smoothStep_sub_target, abs_mul, abs_of_nonneg hβ0]
  have hval : smoothStep s t dt = s + easingFactor dt * (t - s) := by
    rw [smoothStep, lerp]
    ring
  refine ⟨?_, ?_, ?_, ?_, ?_⟩
  · rw [habs]
    nlinarith [abs_nonneg (s - t)]
  · intro hst
    have : 0 < |s - t| := abs_pos.mpr (sub_ne_zero.mpr hst)
    rw [habs]
    nlinarith
  · rcases le_total s t with h | h
    · rw [min_eq_left h, hval]
      nlinarith
    · rw [min_eq_right h, hval]
      nlinarith
  · rcases le_total s t with h | h
    · rw [max_eq_right h, hval]
      nlinarith
    · rw [max_eq_left h, hval]
      nlinarith
  · have hpow : Filter.Tendsto (fun n : ℕ => (1 - easingFactor dt) ^ n)
        Filter.atTop (nhds 0) :=
      tendsto_pow_atTop_nhds_zero_of_lt_one hβ0 hβ1
    have : Filter.Tendsto
        (fun n : ℕ => t + (1 - easingFactor dt) ^ n * (s - t))
        Filter.atTop (nhds (t + 0 * (s - t))) :=
      Filter.Tendsto.const_add t (hpow.mul_const (s - t))
    simp only [zero_mul, add_zero] at this
    exact this.congr (fun n => (smoothStep_iterate s t dt n).symm)

/-- Witness for `c8_smoothing_converges` at a 16 ms frame interval. -/
theorem c8_smoothing_converges_witness :
    ((0 : ℝ) < 16) ∧
    (|smoothStep 0 1 16 - 1| ≤ |(0 : ℝ) - 1| ∧
      ((0 : ℝ) ≠ 1 → |smoothStep 0 1 16 - 1| < |(0 : ℝ) - 1|) ∧
      min (0 : ℝ) 1 ≤ smoothStep 0 1 16 ∧ smoothStep 0 1 16 ≤ max (0 : ℝ) 1 ∧
      Filter.Tendsto (fun n => (fun x => smoothStep x 1 16)^[n] (0 : ℝ))
        Filter.atTop (nhds 1)) :=
  ⟨by norm_num, c8_smoothing_converges 0 1 16 (by norm_num)⟩

/-! ### C9: playback completion stops the loop -/

/-- C9: when a playback tick runs with playback active and the canvas
mounted, and the elapsed time has reached the recorded duration, the
internal playback position is clamped to exactly `recordedDuration`,
`onPauseRecording` is invoked, and no further animation frame is requested
(so no tick is ever scheduled after completion). -/
theorem c9_playback_completion (ctx : PlaybackCtx) (timestamp : ℚ)
    (s : PlaybackLoopState)
    (hplay : ctx.isPlayingRecordedAudio = true)
    (hcanvas : ctx.canvasPresent = true)
    (hreach : ctx.recordedDuration ≤ elapsedSeconds ctx timestamp s) :
    (animationLoop ctx timestamp s).state.internalPlaybackTime =
        ctx.recordedDuration ∧
    (animationLoop ctx timestamp s).pauseSignaled = true ∧
    (animationLoop ctx timestamp s).state.animFrameRequested = false := by
  rw [elapsedSeconds] at hreach
  unfold animationLoop
  rw [if_neg (by simp [hplay, hcanvas])]
  rw [if_pos (le_min hreach le_rfl)]
  exact ⟨rfl, rfl, rfl⟩

/-- Witness for `c9_playback_completion`: playback of a 3-second recording
that started at timestamp 0, ticked at timestamp 4000 ms. -/
theorem c9_playback_completion_witness :
    ((⟨true, true, 0, 3, 500, 1, 100⟩ : PlaybackCtx).isPlayingRecordedAudio
        = true ∧
      (⟨true, true, 0, 3, 500, 1, 100⟩ : PlaybackCtx).canvasPresent = true ∧
      (⟨true, true, 0, 3, 500, 1, 100⟩ : PlaybackCtx).recordedDuration ≤
        elapsedSeconds ⟨true, true, 0, 3, 500, 1, 100⟩ 4000
          ⟨some 0, some 3984, 298 / 100, true⟩) ∧
    ((animationLoop ⟨true, true, 0, 3, 500, 1, 100⟩ 4000
        ⟨some 0, some 3984, 298 / 100, true⟩).state.internalPlaybackTime
        = 3 ∧
      (animationLoop ⟨true, true, 0, 3, 500, 1, 100⟩ 4000
        ⟨some 0, some 3984, 298 / 100, true⟩).pauseSignaled = true ∧
      (animationLoop ⟨true, true, 0, 3, 500, 1, 100⟩ 4000
        ⟨some 0, some 3984, 298 / 100, true⟩).state.animFrameRequested
        = false) :=
  ⟨⟨rfl, rfl, by norm_num [elapsedSeconds]⟩,
    c9_playback_completion _ _ _ rfl rfl (by norm_num [elapsedSeconds])⟩

/-! ### C10: WAV layout — buffer-write helper lemmas -/

/-- Reading a buffer after a block of sequential byte writes: positions
inside the written range see the new bytes, all others the old buffer. -/
theorem writeBytes_apply (bs : List ℕ) (buf : ℕ → ℕ) (off n : ℕ) :
    writeBytes buf off bs n =
      if off ≤ n ∧ n < off + bs.length then bs.getD (n - off) 0 else buf n := by
  induction bs generalizing buf off with
  | nil =>
      rw [writeBytes]
      simp only [List.length_nil, Nat.add_zero]
      rw [if_neg (by omega)]
  | cons b bs ih =>
      rw [writeBytes, ih]
      rcases Nat.lt_trichotomy n off with h | h | h
      · rw [if_neg (by omega), if_neg (by omega),
          Function.update_noteq (by omega)]
      · subst h
        rw [if_neg (by omega), if_pos ⟨le_rfl, by simp⟩,
          Function.update_same]
        simp
      · by_cases h2 : n < off + (b :: bs).length
        · have hlen : n < off + 1 + bs.length := by
            simp only [List.length_cons] at h2
            omega
          rw [if_pos ⟨by omega, hlen⟩, if_pos ⟨by omega, h2⟩]
          have harith : n - off = (n - (off + 1)) + 1 := by omega
          rw [harith]
          rfl
        · have hlen : ¬ n < off + 1 + bs.length := by
            simp only [List.length_cons] at h2
            omega
          rw [if_neg (by omega), if_neg (by omega),
            Function.update_noteq (by omega)]

/-- Indexing a `flatMap` whose blocks all have length `w`. -/
theorem flatMap_fixed_getD {α β : Type} (w : ℕ) (m : α → List β)
    (hm : ∀ a, (m a).length = w) (l : List α) (k j : ℕ) (d : α) (e : β)
    (hk : k < l.length) (hj : j < w) :
    (l.flatMap m).getD (k * w + j) e = (m (l.getD k d)).getD j e := by
  induction l generalizing k with
  | nil => simp at hk
  | cons a tl ih =>
      rw [List.flatMap_cons]
      rcases Nat.eq_zero_or_pos k with rfl | hk0
      · rw [List.getD_append _ _ _ _ (by rw [hm]; simpa using hj)]
        simp
      · obtain ⟨k', rfl⟩ : ∃ k', k = k' + 1 := ⟨k - 1, by omega⟩
        have hidx : (k' + 1) * w + j = (m a).length + (k' * w + j) := by
          rw [hm]
          ring
        rw [hidx, List.getD_append_right _ _ _ _ (Nat.le_add_right _ _),
          Nat.add_sub_cancel_left]
        have hk' : k' < tl.length := by
          simp only [List.length_cons] at hk
          omega
        rw [ih k' hk']
        rfl

/-- Length of a `flatMap` whose blocks all have length `w`. -/
theorem flatMap_fixed_length {α β : Type} (w : ℕ) (m : α → List β)
    (hm : ∀ a, (m a).length = w) (l : List α) :
    (l.flatMap m).length = l.length * w := by
  induction l with
  | nil => simp
  | cons a tl ih =>
      rw [List.flatMap_cons, List.length_append, hm, ih, List.length_cons]
      ring

/-- The channel-sequential PCM pass never touches the 44-byte header. -/
theorem wavChannelWrites_low (f : ℕ) (channels : List (List ℚ))
    (buf : ℕ → ℕ) (n : ℕ) (hn : n < 44) :
    wavChannelWrites f channels buf n = buf n := by
  rw [wavChannelWrites]
  generalize List.range channels.length = l
  induction l generalizing buf with
  | nil => rfl
  | cons ch tl ih =>
      rw [List.foldl_cons, ih, writeBytes_apply, if_neg (by omega)]

/-- Byte codes of the RIFF chunk tag. -/
theorem strBytes_RIFF : strBytes "RIFF" = [82, 73, 70, 70] := by decide

/-- Byte codes of the WAVE form tag. -/
theorem strBytes_WAVE : strBytes "WAVE" = [87, 65, 86, 69] := by decide

/-- Byte codes of the format chunk tag. -/
theorem strBytes_fmt : strBytes "fmt " = [102, 109, 116, 32] := by decide

/-- Byte codes of the data chunk tag. -/
theorem strBytes_data : strBytes "data" = [100, 97, 116, 97] := by decide

/-- The interleaved `pcm16` array has one 16-bit slot per sample. -/
theorem pcm16_length (f : ℕ) (channels : List (List ℚ)) :
    (pcm16 f channels).length = f * channels.length := by
  rw [pcm16, flatMap_fixed_length channels.length _ (fun i => by simp)]
  simp

/-- Slot `i * numOfChan + channel` of `pcm16` holds the converted sample of
channel `channel` at frame `i`. -/
theorem pcm16_getD (f : ℕ) (channels : List (List ℚ)) (i ch : ℕ)
    (hi : i < f) (hch : ch < channels.length) :
    (pcm16 f channels).getD (i * channels.length + ch) 0 =
      floatTo16 (channelSample channels ch i) := by
  rw [pcm16,
    flatMap_fixed_getD channels.length _ (fun a => by simp) _ i ch 0 0
      (by simpa using hi) hch]
  have h1 : (List.range f).getD i 0 = i := by
    rw [List.getD_eq_getElem _ _ (by simpa using hi), List.getElem_range]
  rw [h1, List.getD_eq_getElem _ _ (by simpa using hch), List.getElem_map,
    List.getElem_range]

/-- Decoding a signed 16-bit little-endian field written from an in-range
integer recovers that integer. -/
theorem readI16_i16le (v : ℤ) (h1 : -(2 ^ 15) ≤ v) (h2 : v < 2 ^ 15)
    (buf : ℕ → ℕ) (off : ℕ)
    (hb0 : buf off = (i16le v).getD 0 0)
    (hb1 : buf (off + 1) = (i16le v).getD 1 0) :
    readI16 buf off = v := by
  rw [readI16, readU16, hb0, hb1]
  simp only [i16le, List.getD_cons_zero, List.getD_cons_succ]
  split <;> omega

/-- The converted samples fit the signed 16-bit range: clamping to `[-1, 1]`
and scaling by `0x8000` / `0x7fff` keeps the truncated value in
`[-32768, 32767]`. -/
theorem floatTo16_range (x : ℚ) :
    -(2 ^ 15) ≤ floatTo16 x ∧ floatTo16 x < 2 ^ 15 := by
  rw [floatTo16]
  have hs1 : (-1 : ℚ) ≤ max (-1 : ℚ) (min 1 x) := le_max_left _ _
  have hs2 : max (-1 : ℚ) (min 1 x) ≤ 1 :=
    max_le (by norm_num) (min_le_left _ _)
  split
  case isTrue h =>
    rw [ratTrunc, if_neg (by nlinarith)]
    constructor
    · have hq : -(max (-1 : ℚ) (min 1 x) * 0x8000) ≤ ((32768 : ℤ) : ℚ) := by
        push_cast
        nlinarith
      have := Int.floor_mono hq
      rw [Int.floor_intCast] at this
      omega
    · have hq : (0 : ℚ) ≤ -(max (-1 : ℚ) (min 1 x) * 0x8000) := by nlinarith
      have := Int.floor_nonneg.mpr hq
      omega
  case isFalse h =>
    rw [ratTrunc, if_pos (by nlinarith [not_lt.mp h])]
    constructor
    · have : (0 : ℤ) ≤ ⌊max (-1 : ℚ) (min 1 x) * 0x7fff⌋ := by
        apply Int.floor_nonneg.mpr
        nlinarith [not_lt.mp h]
      omega
    · have hq : max (-1 : ℚ) (min 1 x) * 0x7fff ≤ ((32767 : ℤ) : ℚ) := by
        push_cast
        nlinarith
      have := Int.floor_mono hq
      rw [Int.floor_intCast] at this
      omega

/-- The header region of the final buffer is exactly what the header writes
left there: neither PCM pass touches offsets below 44. -/
theorem convertBlobToWav_low (rate f : ℕ) (channels : List (List ℚ)) (n : ℕ)
    (hn : n < 44) :
    convertBlobToWav rate f channels n =
      wavHeaderWrites rate f channels.length (fun _ => 0) n := by
  rw [convertBlobToWav, wavDataWrites, writeBytes_apply, if_neg (by omega)]
  exact wavChannelWrites_low f channels _ n hn

/-- The data region of the final buffer is the interleaved PCM byte list. -/
theorem convertBlobToWav_data (rate f : ℕ) (channels : List (List ℚ)) (k : ℕ)
    (hk : k < 2 * (f * channels.length)) :
    convertBlobToWav rate f channels (44 + k) =
      ((pcm16 f channels).flatMap i16le).getD k 0 := by
  rw [convertBlobToWav, wavDataWrites, writeBytes_apply]
  have hlen : ((pcm16 f channels).flatMap i16le).length =
      2 * (f * channels.length) := by
    rw [flatMap_fixed_length 2 i16le (fun v => rfl), pcm16_length]
    ring
  rw [if_pos ⟨by omega, by omega⟩, Nat.add_sub_cancel_left]

set_option maxHeartbeats 2000000 in
/-- C10: for a successfully decoded non-WAV input with sample rate `rate`,
`f` frames and `channels.length` channels, `convertBlobToWav` produces a WAV
buffer of exactly `44 + 2*f*channels.length` bytes whose header records RIFF
size `total - 8`, PCM format 1, sample rate `rate`, 16 bits per sample,
block align `2*c`, byte rate `rate*2*c` and data-chunk length `2*f*c`, and
whose data section holds the channel samples interleaved frame-by-frame,
each clamped to `[-1, 1]` and scaled to signed 16 bits (negatives by
`0x8000`, non-negatives by `0x7fff`, per `floatTo16`). -/
theorem c10_wav_layout (rate f : ℕ) (channels : List (List ℚ))
    (hch : ∀ l ∈ channels, l.length = f)
    (hc : 0 < channels.length)
    (hlen : wavLen f channels.length < 2 ^ 32)
    (hrate : rate * channels.length * 2 < 2 ^ 32)
    (hrate32 : rate < 2 ^ 32)
    (hc16 : channels.length * 2 < 2 ^ 16) :
    (wavBytes rate f channels).length = 44 + 2 * f * channels.length ∧
    readU32 (convertBlobToWav rate f channels) 4 =
      wavLen f channels.length - 8 ∧
    readU16 (convertBlobToWav rate f channels) 20 = 1 ∧
    readU16 (convertBlobToWav rate f channels) 22 = channels.length ∧
    readU32 (convertBlobToWav rate f channels) 24 = rate ∧
    readU32 (convertBlobToWav rate f channels) 28 =
      rate * channels.length * 2 ∧
    readU16 (convertBlobToWav rate f channels) 32 = channels.length * 2 ∧
    readU16 (convertBlobToWav rate f channels) 34 = 16 ∧
    readU32 (convertBlobToWav rate f channels) 40 = 2 * f * channels.length ∧
    (∀ i ch, i < f → ch < channels.length →
      readI16 (convertBlobToWav rate f channels)
          (44 + 2 * (i * channels.length + ch)) =
        floatTo16 (channelSample channels ch i)) := by
  have hlow : ∀ n, n < 44 → convertBlobToWav rate f channels n =
      wavHeaderWrites rate f channels.length (fun _ => 0) n :=
    fun n hn => convertBlobToWav_low rate f channels n hn
  refine ⟨?_, ?_, ?_, ?_, ?_, ?_, ?_, ?_, ?_, ?_⟩
  · rw [wavBytes, List.length_map, List.length_range, wavLen]
    ring
  · rw [readU32, hlow 4 (by omega), hlow 5 (by omega), hlow 6 (by omega),
      hlow 7 (by omega)]
    rw [show wavLen f channels.length - 8 =
        f * channels.length * 2 + 44 - 8 by rw [wavLen]]
    rw [wavHeaderWrites]
    simp only [writeBytes_apply, strBytes_RIFF, strBytes_WAVE, strBytes_fmt,
      strBytes_data, u32le, u16le, wavLen, List.length_cons, List.length_nil]
    norm_num [List.getD]
    rw [wavLen] at hlen
    omega
  · rw [readU16, hlow 20 (by omega), hlow 21 (by omega), wavHeaderWrites]
    simp only [writeBytes_apply, strBytes_RIFF, strBytes_WAVE, strBytes_fmt,
      strBytes_data, u32le, u16le, wavLen, List.length_cons, List.length_nil]
    norm_num [List.getD]
  · rw [readU16, hlow 22 (by omega), hlow 23 (by omega), wavHeaderWrites]
    simp only [writeBytes_apply, strBytes_RIFF, strBytes_WAVE, strBytes_fmt,
      strBytes_data, u32le, u16le, wavLen, List.length_cons, List.length_nil]
    norm_num [List.getD]
    omega
  · rw [readU32, hlow 24 (by omega), hlow 25 (by omega), hlow 26 (by omega),
      hlow 27 (by omega), wavHeaderWrites]
    simp only [writeBytes_apply, strBytes_RIFF, strBytes_WAVE, strBytes_fmt,
      strBytes_data, u32le, u16le, wavLen, List.length_cons, List.length_nil]
    norm_num [List.getD]
    omega
  · rw [readU32, hlow 28 (by omega), hlow 29 (by omega), hlow 30 (by omega),
      hlow 31 (by omega), wavHeaderWrites]
    simp only [writeBytes_apply, strBytes_RIFF, strBytes_WAVE, strBytes_fmt,
      strBytes_data, u32le, u16le, wavLen, List.length_cons, List.length_nil]
    norm_num [List.getD]
    omega
  · rw [readU16, hlow 32 (by omega), hlow 33 (by omega), wavHeaderWrites]
    simp only [writeBytes_apply, strBytes_RIFF, strBytes_WAVE, strBytes_fmt,
      strBytes_data, u32le, u16le, wavLen, List.length_cons, List.length_nil]
    norm_num [List.getD]
    omega
  · rw [readU16, hlow 34 (by omega), hlow 35 (by omega), wavHeaderWrites]
    simp only [writeBytes_apply, strBytes_RIFF, strBytes_WAVE, strBytes_fmt,
      strBytes_data, u32le, u16le, wavLen, List.length_cons, List.length_nil]
    norm_num [List.getD]
  · have h : 2 * f * channels.length = f * channels.length * 2 := by ring
    rw [h, readU32, hlow 40 (by omega), hlow 41 (by omega),
      hlow 42 (by omega), hlow 43 (by omega), wavHeaderWrites]
    simp only [writeBytes_apply, strBytes_RIFF, strBytes_WAVE, strBytes_fmt,
      strBytes_data, u32le, u16le, wavLen, List.length_cons, List.length_nil]
    norm_num [List.getD]
    rw [wavLen] at hlen
    omega
  · intro i ch hi hch'
    have hm : i * channels.length + ch < f * channels.length :=
      calc i * channels.length + ch
          < i * channels.length + channels.length := Nat.add_lt_add_left hch' _
        _ = (i + 1) * channels.length := by ring
        _ ≤ f * channels.length := Nat.mul_le_mul_right _ hi
    have hplen : (i * channels.length + ch) < (pcm16 f channels).length := by
      rw [pcm16_length]
      exact hm
    apply readI16_i16le (floatTo16 (channelSample channels ch i))
      (floatTo16_range _).1 (floatTo16_range _).2
    · rw [convertBlobToWav_data rate f channels _ (by omega)]
      have hidx : 2 * (i * channels.length + ch) =
          (i * channels.length + ch) * 2 + 0 := by ring
      rw [hidx,
        flatMap_fixed_getD 2 i16le (fun v => rfl) _ _ 0 0 0 hplen (by omega),
        pcm16_getD f channels i ch hi hch']
    · have hoff : 44 + 2 * (i * channels.length + ch) + 1 =
          44 + (2 * (i * channels.length + ch) + 1) := by omega
      rw [hoff, convertBlobToWav_data rate f channels _ (by omega)]
      have hidx : 2 * (i * channels.length + ch) + 1 =
          (i * channels.length + ch) * 2 + 1 := by ring
      rw [hidx,
        flatMap_fixed_getD 2 i16le (fun v => rfl) _ _ 1 0 0 hplen (by omega),
        pcm16_getD f channels i ch hi hch']

/-- Witness for `c10_wav_layout`: a 2-frame stereo buffer at 8 kHz with
samples `[1/2, -1/2]` and `[1, -1]`. -/
theorem c10_wav_layout_witness :
    ((∀ l ∈ ([[(1 : ℚ) / 2, -1 / 2], [1, -1]] : List (List ℚ)),
        l.length = 2) ∧
      0 < ([[(1 : ℚ) / 2, -1 / 2], [1, -1]] : List (List ℚ)).length ∧
      wavLen 2 ([[(1 : ℚ) / 2, -1 / 2], [1, -1]] : List (List ℚ)).length
        < 2 ^ 32 ∧
      8000 * ([[(1 : ℚ) / 2, -1 / 2], [1, -1]] : List (List ℚ)).length * 2
        < 2 ^ 32 ∧
      8000 < 2 ^ 32 ∧
      ([[(1 : ℚ) / 2, -1 / 2], [1, -1]] : List (List ℚ)).length * 2
        < 2 ^ 16) ∧
    ((wavBytes 8000 2 [[(1 : ℚ) / 2, -1 / 2], [1, -1]]).length =
        44 + 2 * 2 * ([[(1 : ℚ) / 2, -1 / 2], [1, -1]] : List (List ℚ)).length ∧
      readU32 (convertBlobToWav 8000 2 [[(1 : ℚ) / 2, -1 / 2], [1, -1]]) 4 =
        wavLen 2 ([[(1 : ℚ) / 2, -1 / 2], [1, -1]] : List (List ℚ)).length - 8 ∧
      readU16 (convertBlobToWav 8000 2 [[(1 : ℚ) / 2, -1 / 2], [1, -1]]) 20 = 1 ∧
      readU16 (convertBlobToWav 8000 2 [[(1 : ℚ) / 2, -1 / 2], [1, -1]]) 22 =
        ([[(1 : ℚ) / 2, -1 / 2], [1, -1]] : List (List ℚ)).length ∧
      readU32 (convertBlobToWav 8000 2 [[(1 : ℚ) / 2, -1 / 2], [1, -1]]) 24 =
        8000 ∧
      readU32 (convertBlobToWav 8000 2 [[(1 : ℚ) / 2, -1 / 2], [1, -1]]) 28 =
        8000 * ([[(1 : ℚ) / 2, -1 / 2], [1, -1]] : List (List ℚ)).length * 2 ∧
      readU16 (convertBlobToWav 8000 2 [[(1 : ℚ) / 2, -1 / 2], [1, -1]]) 32 =
        ([[(1 : ℚ) / 2, -1 / 2], [1, -1]] : List (List ℚ)).length * 2 ∧
      readU16 (convertBlobToWav 8000 2 [[(1 : ℚ) / 2, -1 / 2], [1, -1]]) 34 =
        16 ∧
      readU32 (convertBlobToWav 8000 2 [[(1 : ℚ) / 2, -1 / 2], [1, -1]]) 40 =
        2 * 2 * ([[(1 : ℚ) / 2, -1 / 2], [1, -1]] : List (List ℚ)).length ∧
      (∀ i ch, i < 2 →
        ch < ([[(1 : ℚ) / 2, -1 / 2], [1, -1]] : List (List ℚ)).length →
        readI16 (convertBlobToWav 8000 2 [[(1 : ℚ) / 2, -1 / 2], [1, -1]])
            (44 + 2 * (i * ([[(1 : ℚ) / 2, -1 / 2], [1, -1]] :
              List (List ℚ)).length + ch)) =
          floatTo16
            (channelSample [[(1 : ℚ) / 2, -1 / 2], [1, -1]] ch i))) :=
  ⟨⟨by simp, by decide, by decide, by decide, by decide, by decide⟩,
    c10_wav_layout 8000 2 [[(1 : ℚ) / 2, -1 / 2], [1, -1]] (by simp)
      (by decide) (by decide) (by decide) (by decide) (by decide)⟩

end VoiceChanger
